import Mathlib

/-!
Verification of the generic reactive entity-store abstraction
(`src/store.abstract.ts`) and its `DreamStoreService` instantiation.

Modelling choices (shallow embedding):
* Each `BehaviorSubject` channel is a field of the `AbstractStore` record
  holding its current value; a `next(v)` call is a `Ev` write event.
* One pipeline invocation is driven by a single upstream outcome
  (`Except E V`: the producer emits exactly one value then completes, or
  fails), and returns the ordered list of channel-write events it performs
  together with the caller-observed stream outcome (`StreamResult`).
  No pipeline in the source reads a channel it has already written within
  the same invocation, so events can be computed against the pre-call state
  and the post-call state recovered with `applyEvs`.
* A throwing TypeScript class constructor (`new model(item)`) is modelled
  as a factory `V → Except E T`.
-/

/-- TypeScript entity types carry a numeric `id` field (`ItemWithId<T>`). -/
class HasId (T : Type) where
  id : T → Nat

/-- A keyed/enveloped response object (`{ [key: string]: unknown[] }`),
modelled as an association list so that field access `value[key]` becomes a
lookup that may miss (yield `undefined`, i.e. `none`). -/
abbrev KeyedResp (V : Type) : Type := List (String × List V)

/-- Field access `value[key]` on a keyed response: `none` models `undefined`. -/
def lookupKey {V : Type} : KeyedResp V → String → Option (List V)
  | [], _ => none
  | (k, vs) :: rest, key => if k == key then some vs else lookupKey rest key

/-- Values the `any`-typed `_responseStore` can receive: a raw payload
(create/update/delete pipelines), a raw payload list (bulk update) or a keyed
response object (`takeItemsGetModelsAndSetValue`). -/
inductive RespVal (V : Type) where
  | raw : V → RespVal V
  | rawList : List V → RespVal V
  | keyed : KeyedResp V → RespVal V
deriving DecidableEq

/-- One `next(...)` call on one of the six channels of a store. -/
inductive Ev (T V E : Type) where
  | item : Option T → Ev T V E
  | items : List T → Ev T V E
  | fetching : Bool → Ev T V E
  | manip : Bool → Ev T V E
  | response : RespVal V → Ev T V E
  | error : E → Ev T V E
deriving DecidableEq

/-- Caller-observed outcome of one pipeline invocation: the stream emits one
value then completes, completes empty (`EMPTY`), or terminates in error
(`throwError`). -/
inductive StreamResult (E W : Type) where
  | emits : W → StreamResult E W
  | empty : StreamResult E W
  | fails : E → StreamResult E W
deriving DecidableEq

/-- `createItemStore`: a `BehaviorSubject<T | null>` starting at `null`. -/
def createItemStore {A : Type} : Option A := none

/-- `createItemsStore`: a `BehaviorSubject<T[]>` starting at `[]`. -/
def createItemsStore {A : Type} : List A := []

/-- `createFetchingStore`: a boolean `BehaviorSubject` starting at `false`. -/
def createFetchingStore : Bool := false

/-- Current values of the six channels of an `AbstractStore<T>`, plus the two
booleans `_isFetchingValue` and `_isFetchingAfterManipulateValue`, which the
source initialises with `this._isFetchingStore.getValue()` — a field
initialiser evaluated once at construction, never re-read. -/
structure AbstractStore (T V E : Type) where
  _itemStore : Option T
  _itemsStore : List T
  _isFetchingStore : Bool
  _isFetchingAfterManipulateStore : Bool
  _responseStore : Option (RespVal V)
  _errorStore : Option E
  _isFetchingValue : Bool
  _isFetchingAfterManipulateValue : Bool
deriving DecidableEq

/-- A freshly constructed store: all field initialisers evaluated. -/
def AbstractStore.init {T V E : Type} : AbstractStore T V E :=
  ⟨createItemStore, createItemsStore, createFetchingStore, createFetchingStore,
   createItemStore, createItemStore, createFetchingStore, createFetchingStore⟩

/-- `isLoaded` getter: compares the construction-time captured
`_isFetchingValue` against `false`. -/
def AbstractStore.isLoaded {T V E : Type} (s : AbstractStore T V E) : Bool :=
  s._isFetchingValue == false

/-- `isLoadedAfterManipulate` getter: compares the construction-time captured
`_isFetchingAfterManipulateValue` against `false`. -/
def AbstractStore.isLoadedAfterManipulate {T V E : Type} (s : AbstractStore T V E) : Bool :=
  s._isFetchingAfterManipulateValue == false

/-- Apply one channel-write event to the store state.  Note the two captured
`..Value` fields are plain booleans: no `next(...)` call ever changes them. -/
def applyEv {T V E : Type} (s : AbstractStore T V E) : Ev T V E → AbstractStore T V E
  | .item v => { s with _itemStore := v }
  | .items l => { s with _itemsStore := l }
  | .fetching b => { s with _isFetchingStore := b }
  | .manip b => { s with _isFetchingAfterManipulateStore := b }
  | .response r => { s with _responseStore := some r }
  | .error e => { s with _errorStore := some e }

/-- Apply a whole trace of channel writes in order. -/
def applyEvs {T V E : Type} (s : AbstractStore T V E) (evs : List (Ev T V E)) :
    AbstractStore T V E :=
  evs.foldl applyEv s

/-- Recognise a write to the shared error channel in a trace. -/
def isErrorWrite {T V E : Type} : Ev T V E → Bool
  | .error _ => true
  | _ => false

/-- `getModel(model, item)`: `new model(item)` with a possibly-throwing
constructor modelled as `Except`. -/
def getModel {T V E : Type} (model : V → Except E T) (item : V) : Except E T :=
  model item

/-- Modelled from the spec: `getClassInstances` (imported by
`store.abstract.ts` but not under `src/`) "applies `toModel` elementwise; if
`rawList` is empty or absent, returns an empty list (never raises on empty
input)"; a throwing element conversion propagates as the first error. -/
def getClassInstances {T V E : Type} (model : V → Except E T) :
    Option (List V) → Except E (List T)
  | none => .ok []
  | some items => items.mapM model

/-- `getModels(model, items)`: elementwise conversion via `getClassInstances`. -/
def getModels {T V E : Type} (model : V → Except E T) (items : Option (List V)) :
    Except E (List T) :=
  getClassInstances model items

/-- Modelled from the spec: `updateItemsArrayById` (`upsertById`, imported by
`store.abstract.ts` but not under `src/`): "scans `list` for an entry whose
`id` equals `item.id`; if found, replaces it in place (position preserved); if
not found, appends. Returns a new list (source list is not mutated)." -/
def updateItemsArrayById {T : Type} [HasId T] (list : List T) (item : T) : List T :=
  if list.any (fun x => HasId.id x == HasId.id item) then
    list.map (fun x => if HasId.id x == HasId.id item then item else x)
  else
    list ++ [item]

/-- Modelled from the spec: `updateMultipleItemsArrayById` (`upsertManyById`,
imported by `store.abstract.ts` but not under `src/`): "applies `upsertById`
once per element of `items`, in `items` order". -/
def updateMultipleItemsArrayById {T : Type} [HasId T] (list : List T) (items : List T) :
    List T :=
  items.foldl updateItemsArrayById list

/-- `getModelAndSetValue` (fetch-single pipe): `map(getModel)`,
`tap(store.next)`, `tap(isFetching.next(false))`, then
`catchError(() => \x7b isFetching.next(false); return EMPTY \x7d)`.  The
`catchError` is last in the pipe, so it catches both an upstream failure and a
throwing constructor in `map`. -/
def getModelAndSetValue {T V E : Type} (model : V → Except E T)
    (input : Except E V) : List (Ev T V E) × StreamResult E T :=
  match input with
  | .error _ => ([Ev.fetching false], .empty)
  | .ok value =>
    match getModel model value with
    | .error _ => ([Ev.fetching false], .empty)
    | .ok m => ([Ev.item (some m), Ev.fetching false], .emits m)

/-- `getModelsAndSetValue` (fetch-list pipe): same shape as
`getModelAndSetValue` but elementwise, writing the items channel.  The input
list is `Option`al because `takeItemsGetModelsAndSetValue` feeds it
`value[key]`, which may be `undefined`. -/
def getModelsAndSetValue {T V E : Type} (model : V → Except E T)
    (input : Except E (Option (List V))) : List (Ev T V E) × StreamResult E (List T) :=
  match input with
  | .error _ => ([Ev.fetching false], .empty)
  | .ok values =>
    match getModels model values with
    | .error _ => ([Ev.fetching false], .empty)
    | .ok ms => ([Ev.items ms, Ev.fetching false], .emits ms)

/-- `takeItemsGetModelsAndSetValue` (fetch-list-keyed pipe):
`tap(response => responseStore.next(response))`, `map(value => value[key])`
with `key` defaulting to `"results"` when not supplied (`key = none`), then
the `getModelsAndSetValue` pipe, then an extra `tap(isFetching.next(false))`
that fires only on a successful emission (the inner `catchError` has already
replaced a failure by `EMPTY`). -/
def takeItemsGetModelsAndSetValue {T V E : Type} (model : V → Except E T)
    (key : Option String) (input : Except E (KeyedResp V)) :
    List (Ev T V E) × StreamResult E (List T) :=
  match input with
  | .error e => getModelsAndSetValue model (.error e)
  | .ok response =>
    match getModelsAndSetValue model (.ok (lookupKey response (key.getD "results"))) with
    | (evs, .emits ms) =>
      (Ev.response (RespVal.keyed response) :: evs ++ [Ev.fetching false], .emits ms)
    | (evs, r) => (Ev.response (RespVal.keyed response) :: evs, r)

/-- `preventBehaviourIfError`: `pipe(catchError(err => \x7b errorStore.next(err);
isFetchingAfterManipulate.next(false); return throwError(err) \x7d),
switchMap(value => of(value).pipe(behavior)))`.  The `catchError` sits before
the `switchMap`, so it intercepts only upstream failures: it records the
error, clears the write-flag and re-raises; an upstream value is forwarded
into `behavior` unchanged. -/
def preventBehaviourIfError {T V E U W : Type}
    (behavior : U → List (Ev T V E) × StreamResult E W) (input : Except E U) :
    List (Ev T V E) × StreamResult E W :=
  match input with
  | .error e => ([Ev.error e, Ev.manip false], .fails e)
  | .ok v => behavior v

/-- Insertion position for `createItemBehavior` (`'head' | 'last'`). -/
inductive Position where
  | head
  | last
deriving DecidableEq

/-- `createItemBehavior` (create pipe), wrapped in `preventBehaviourIfError`:
`tap(responseStore.next)`, `map(getModel)`, `tap` writing the item channel,
the items channel (new model at head or tail depending on `position`,
defaulting to `'last'` when not supplied) and clearing the write-flag, then
`catchError(() => \x7b manip.next(false); return EMPTY \x7d)` which swallows a
throwing constructor (after the response write already happened). -/
def createItemBehavior {T V E : Type} (position : Option Position)
    (model : V → Except E T) (s : AbstractStore T V E) (input : Except E V) :
    List (Ev T V E) × StreamResult E T :=
  preventBehaviourIfError (fun value =>
    match getModel model value with
    | .error _ => ([Ev.response (RespVal.raw value), Ev.manip false], .empty)
    | .ok m =>
      ([Ev.response (RespVal.raw value), Ev.item (some m),
        Ev.items (match position.getD Position.last with
          | .head => m :: s._itemsStore
          | .last => s._itemsStore ++ [m]),
        Ev.manip false], .emits m)) input

/-- `updateItemBehavior` (update-single pipe), wrapped in
`preventBehaviourIfError`: like `createItemBehavior` but reconciling the items
channel with `updateItemsArrayById`. -/
def updateItemBehavior {T V E : Type} [HasId T]
    (model : V → Except E T) (s : AbstractStore T V E) (input : Except E V) :
    List (Ev T V E) × StreamResult E T :=
  preventBehaviourIfError (fun value =>
    match getModel model value with
    | .error _ => ([Ev.response (RespVal.raw value), Ev.manip false], .empty)
    | .ok m =>
      ([Ev.response (RespVal.raw value), Ev.item (some m),
        Ev.items (updateItemsArrayById s._itemsStore m),
        Ev.manip false], .emits m)) input

/-- `updateMultipleItemsBehavior` (update-bulk pipe), wrapped in
`preventBehaviourIfError`: `tap(responseStore.next)`, `map(getModels)`,
`tap` reconciling the items channel with `updateMultipleItemsArrayById` and
clearing the write-flag, inner `catchError` returning `EMPTY`. -/
def updateMultipleItemsBehavior {T V E : Type} [HasId T]
    (model : V → Except E T) (s : AbstractStore T V E) (input : Except E (List V)) :
    List (Ev T V E) × StreamResult E (List T) :=
  preventBehaviourIfError (fun values =>
    match getModels model (some values) with
    | .error _ => ([Ev.response (RespVal.rawList values), Ev.manip false], .empty)
    | .ok ms =>
      ([Ev.response (RespVal.rawList values),
        Ev.items (updateMultipleItemsArrayById s._itemsStore ms),
        Ev.manip false], .emits ms)) input

/-- `deleteItemBehavior` (delete pipe), wrapped in `preventBehaviourIfError`:
`tap(responseStore.next)`, `tap` filtering the items channel by
`item?.id !== itemId` and clearing the write-flag (the upstream value is
re-emitted unchanged: the pipe is `tap`-only). -/
def deleteItemBehavior {T V E : Type} [HasId T] (itemId : Nat)
    (s : AbstractStore T V E) (input : Except E V) :
    List (Ev T V E) × StreamResult E V :=
  preventBehaviourIfError (fun value =>
    ([Ev.response (RespVal.raw value),
      Ev.items (s._itemsStore.filter (fun item => HasId.id item != itemId)),
      Ev.manip false], .emits value)) input

/-- `startFetchingWrapper(func)`: synchronously writes `true` to the
read-flag channel at call time, then returns `func` unchanged — building the
returned (cold) producer performs no other channel write. -/
def startFetchingWrapper {T V E F : Type} (func : F) : List (Ev T V E) × F :=
  ([Ev.fetching true], func)

/-- `startFetchingAfterManipulateWrapper(func)`: synchronously writes `true`
to the write-flag channel at call time, then returns `func` unchanged. -/
def startFetchingAfterManipulateWrapper {T V E F : Type} (func : F) : List (Ev T V E) × F :=
  ([Ev.manip true], func)

/-- Concrete entity type for the `DreamStoreService` instantiation (the
`Dream` model class: a stable numeric `id` plus payload data). -/
structure Dream where
  id : Nat
  name : String
deriving DecidableEq

instance : HasId Dream := ⟨Dream.id⟩

/-- Raw payload for a `Dream`: `none` models a malformed shape the model
constructor raises on. -/
abbrev RawDream := Option (Nat × String)

/-- Modelled from the spec: the `Dream` model class constructor (under
`@models`, not under `src/`) — "raw payload fails to convert into the typed
entity (malformed shape)" surfaces as a construction error. -/
def dreamModel : RawDream → Except String Dream
  | none => .error "malformed payload"
  | some (i, n) => .ok ⟨i, n⟩

/-- The `DreamStoreService` store state: `AbstractStore<Dream>`. -/
abbrev DreamStore := AbstractStore Dream RawDream String

namespace DreamStoreService

/-- `getProfileDreams`: `startFetchingWrapper(api.pipe(takeItemsGetModelsAndSetValue()))`.
First component: the channel writes performed synchronously at call time;
second: the cold producer, run only when subscribed and the API emits. -/
def getProfileDreams :
    List (Ev Dream RawDream String) ×
      (Except String (KeyedResp RawDream) →
        List (Ev Dream RawDream String) × StreamResult String (List Dream)) :=
  startFetchingWrapper (fun input => takeItemsGetModelsAndSetValue dreamModel none input)

/-- `getDreamsAsAdmin`: same wrapping as `getProfileDreams`. -/
def getDreamsAsAdmin :
    List (Ev Dream RawDream String) ×
      (Except String (KeyedResp RawDream) →
        List (Ev Dream RawDream String) × StreamResult String (List Dream)) :=
  startFetchingWrapper (fun input => takeItemsGetModelsAndSetValue dreamModel none input)

/-- `getPlatformDreamsAsAdmin`: same wrapping as `getProfileDreams`. -/
def getPlatformDreamsAsAdmin :
    List (Ev Dream RawDream String) ×
      (Except String (KeyedResp RawDream) →
        List (Ev Dream RawDream String) × StreamResult String (List Dream)) :=
  startFetchingWrapper (fun input => takeItemsGetModelsAndSetValue dreamModel none input)

/-- `getDreamById(id)`: `startFetchingWrapper(api.pipe(getModelAndSetValue()))`. -/
def getDreamById (_id : Nat) :
    List (Ev Dream RawDream String) ×
      (Except String RawDream → List (Ev Dream RawDream String) × StreamResult String Dream) :=
  startFetchingWrapper (fun input => getModelAndSetValue dreamModel input)

/-- `getDreamByIdAsAdmin(id)`: same wrapping as `getDreamById`. -/
def getDreamByIdAsAdmin (_id : Nat) :
    List (Ev Dream RawDream String) ×
      (Except String RawDream → List (Ev Dream RawDream String) × StreamResult String Dream) :=
  startFetchingWrapper (fun input => getModelAndSetValue dreamModel input)

/-- `createDream(newDream)`:
`startFetchingAfterManipulateWrapper(api.pipe(createItemBehavior()))`.  The
producer reads the store state at subscription time. -/
def createDream :
    List (Ev Dream RawDream String) ×
      (DreamStore → Except String RawDream →
        List (Ev Dream RawDream String) × StreamResult String Dream) :=
  startFetchingAfterManipulateWrapper (fun s input => createItemBehavior none dreamModel s input)

/-- `updateDreamAsAdmin(newDream, id)`:
`startFetchingAfterManipulateWrapper(api.pipe(updateItemBehavior()))`. -/
def updateDreamAsAdmin (_id : Nat) :
    List (Ev Dream RawDream String) ×
      (DreamStore → Except String RawDream →
        List (Ev Dream RawDream String) × StreamResult String Dream) :=
  startFetchingAfterManipulateWrapper (fun s input => updateItemBehavior dreamModel s input)

/-- `updateMultipleDreams(newDream, ids)`:
`startFetchingAfterManipulateWrapper(api.pipe(updateMultipleItemsBehavior()))`. -/
def updateMultipleDreams :
    List (Ev Dream RawDream String) ×
      (DreamStore → Except String (List RawDream) →
        List (Ev Dream RawDream String) × StreamResult String (List Dream)) :=
  startFetchingAfterManipulateWrapper
    (fun s input => updateMultipleItemsBehavior dreamModel s input)

/-- `updateMultiplePlatformDreams(newValue, ids)`: same wrapping as
`updateMultipleDreams`. -/
def updateMultiplePlatformDreams :
    List (Ev Dream RawDream String) ×
      (DreamStore → Except String (List RawDream) →
        List (Ev Dream RawDream String) × StreamResult String (List Dream)) :=
  startFetchingAfterManipulateWrapper
    (fun s input => updateMultipleItemsBehavior dreamModel s input)

/-- `setIsDreamCompleted(id)`: pipes `updateItemBehavior()` directly, with NO
`startFetchingAfterManipulateWrapper` — the call performs no synchronous
channel write. -/
def setIsDreamCompleted (_id : Nat) :
    List (Ev Dream RawDream String) ×
      (DreamStore → Except String RawDream →
        List (Ev Dream RawDream String) × StreamResult String Dream) :=
  ([], fun s input => updateItemBehavior dreamModel s input)

/-- `setIsWithDelivery(id, value)`: pipes `updateItemBehavior()` directly,
with NO wrapper — the call performs no synchronous channel write. -/
def setIsWithDelivery (_id : Nat) (_value : Bool) :
    List (Ev Dream RawDream String) ×
      (DreamStore → Except String RawDream →
        List (Ev Dream RawDream String) × StreamResult String Dream) :=
  ([], fun s input => updateItemBehavior dreamModel s input)

end DreamStoreService

theorem applyEv_isFetchingValue {T V E : Type} (s : AbstractStore T V E) (e : Ev T V E) :
    (applyEv s e)._isFetchingValue = s._isFetchingValue := by
  cases e <;> rfl

theorem applyEv_isFetchingAfterManipulateValue {T V E : Type} (s : AbstractStore T V E)
    (e : Ev T V E) :
    (applyEv s e)._isFetchingAfterManipulateValue = s._isFetchingAfterManipulateValue := by
  cases e <;> rfl

theorem applyEvs_isFetchingValue {T V E : Type} (evs : List (Ev T V E)) :
    ∀ s : AbstractStore T V E, (applyEvs s evs)._isFetchingValue = s._isFetchingValue := by
  induction evs with
  | nil => intro s; rfl
  | cons e rest ih =>
    intro s
    have h : applyEvs s (e :: rest) = applyEvs (applyEv s e) rest := rfl
    rw [h, ih, applyEv_isFetchingValue]

theorem applyEvs_isFetchingAfterManipulateValue {T V E : Type} (evs : List (Ev T V E)) :
    ∀ s : AbstractStore T V E,
      (applyEvs s evs)._isFetchingAfterManipulateValue = s._isFetchingAfterManipulateValue := by
  induction evs with
  | nil => intro s; rfl
  | cons e rest ih =>
    intro s
    have h : applyEvs s (e :: rest) = applyEvs (applyEv s e) rest := rfl
    rw [h, ih, applyEv_isFetchingAfterManipulateValue]

/-- C3: for every store and every sequence of channel writes (hence every
sequence of pipeline invocations and flag writes), the public accessors
`isLoaded` and `isLoadedAfterManipulate` return `true`: they compare the
booleans `_isFetchingValue` / `_isFetchingAfterManipulateValue` captured once
at construction (the flag channels' initial value `false`), which no channel
write ever updates, so they never reflect an in-flight fetch or mutation. -/
theorem isLoaded_always_true {T V E : Type} (evs : List (Ev T V E)) :
    (applyEvs (AbstractStore.init : AbstractStore T V E) evs).isLoaded = true ∧
    (applyEvs (AbstractStore.init : AbstractStore T V E) evs).isLoadedAfterManipulate = true := by
  constructor
  · rw [AbstractStore.isLoaded, applyEvs_isFetchingValue]
    rfl
  · rw [AbstractStore.isLoadedAfterManipulate, applyEvs_isFetchingAfterManipulateValue]
    rfl

theorem map_replace_none {T : Type} [HasId T] (e : T) (l : List T)
    (h : ∀ y ∈ l, HasId.id y ≠ HasId.id e) :
    l.map (fun y => if HasId.id y == HasId.id e then e else y) = l := by
  induction l with
  | nil => rfl
  | cons a rest ih =>
    have ha : HasId.id a ≠ HasId.id e := h a (by simp)
    simp only [List.map_cons]
    rw [if_neg (by simpa using ha), ih (fun y hy => h y (by simp [hy]))]

theorem nodup_middle_unique {T : Type} [HasId T] (l1 l2 : List T) (x : T)
    (hu : ((l1 ++ x :: l2).map HasId.id).Nodup) :
    (∀ y ∈ l1, HasId.id y ≠ HasId.id x) ∧ (∀ y ∈ l2, HasId.id y ≠ HasId.id x) := by
  rw [List.map_append, List.map_cons, List.nodup_append] at hu
  obtain ⟨-, hcons, hdisj⟩ := hu
  rw [List.nodup_cons] at hcons
  constructor
  · intro y hy heq
    exact hdisj (List.mem_map_of_mem HasId.id hy) (by simp [heq])
  · intro y hy heq
    exact hcons.1 (heq ▸ List.mem_map_of_mem HasId.id hy)

/-- C5: for every list `L` whose elements have unique ids and every entity
`e`, `updateItemsArrayById` (the update-single pipeline's `upsertById`
reconciliation) replaces the entry whose id equals `e`'s at its original
position leaving all other elements and their order unchanged (witnessed by
any decomposition of `L` around that entry), and appends `e` at the end when
no such entry exists.  The result is a fresh list; `L` itself is a pure
value and cannot be mutated. -/
theorem updateItemsArrayById_spec {T : Type} [HasId T] (L : List T) (e : T)
    (hu : (L.map HasId.id).Nodup) :
    ((∀ x ∈ L, HasId.id x ≠ HasId.id e) → updateItemsArrayById L e = L ++ [e]) ∧
    (∀ l1 x l2, L = l1 ++ x :: l2 → HasId.id x = HasId.id e →
      updateItemsArrayById L e = l1 ++ e :: l2) := by
  constructor
  · intro h
    have hany : L.any (fun x => HasId.id x == HasId.id e) = false := by
      rw [List.any_eq_false]
      intro x hx
      simpa using h x hx
    rw [updateItemsArrayById, hany]
    simp
  · intro l1 x l2 hL hid
    subst hL
    obtain ⟨h1, h2⟩ := nodup_middle_unique l1 l2 x hu
    have hany : (l1 ++ x :: l2).any (fun y => HasId.id y == HasId.id e) = true := by
      rw [List.any_eq_true]
      exact ⟨x, by simp, by simpa using hid⟩
    rw [updateItemsArrayById, hany]
    simp only [if_true]
    rw [List.map_append, List.map_cons]
    rw [map_replace_none e l1 (fun y hy => hid ▸ h1 y hy)]
    rw [map_replace_none e l2 (fun y hy => hid ▸ h2 y hy)]
    rw [if_pos (by simpa using hid)]

/-- Witness for C5 on the spec's own scenario: upserting `{id 2, name B}`
into `[{id 1, name a}, {id 2, name b}]` replaces the second entry in place. -/
theorem updateItemsArrayById_spec_witness :
    updateItemsArrayById [Dream.mk 1 "a", Dream.mk 2 "b"] (Dream.mk 2 "B")
      = [Dream.mk 1 "a", Dream.mk 2 "B"] ∧
    updateItemsArrayById [Dream.mk 1 "a", Dream.mk 2 "b"] (Dream.mk 3 "c")
      = [Dream.mk 1 "a", Dream.mk 2 "b", Dream.mk 3 "c"] := by
  have h1 := updateItemsArrayById_spec [Dream.mk 1 "a", Dream.mk 2 "b"] (Dream.mk 2 "B")
    (by decide)
  have h2 := updateItemsArrayById_spec [Dream.mk 1 "a", Dream.mk 2 "b"] (Dream.mk 3 "c")
    (by decide)
  exact ⟨h1.2 [Dream.mk 1 "a"] (Dream.mk 2 "b") [] rfl (by decide),
         h2.1 (by decide)⟩

theorem filter_keep_all {T : Type} [HasId T] (l : List T) (i : Nat)
    (h : ∀ x ∈ l, HasId.id x ≠ i) :
    l.filter (fun x => HasId.id x != i) = l := by
  rw [List.filter_eq_self]
  intro a ha
  simpa using h a ha

/-- C6: for every store whose list `L` has unique ids, a successful delete
pipeline run with id `i` writes to the list channel `L` with the single entry
whose id equals `i` removed and all other elements in their original order
(witnessed by any decomposition of `L` around that entry), clears the
write-flag and re-emits the upstream value; if no entry of `L` has id `i`,
the written list is `L` itself (a no-op removal). -/
theorem deleteItemBehavior_spec {T V E : Type} [HasId T] (s : AbstractStore T V E)
    (i : Nat) (v : V) (hu : (s._itemsStore.map HasId.id).Nodup) :
    (applyEvs s (deleteItemBehavior i s (.ok v)).1)._isFetchingAfterManipulateStore = false ∧
    (deleteItemBehavior i s (.ok v)).2 = .emits v ∧
    ((∀ x ∈ s._itemsStore, HasId.id x ≠ i) →
      (applyEvs s (deleteItemBehavior i s (.ok v)).1)._itemsStore = s._itemsStore) ∧
    (∀ l1 x l2, s._itemsStore = l1 ++ x :: l2 → HasId.id x = i →
      (applyEvs s (deleteItemBehavior i s (.ok v)).1)._itemsStore = l1 ++ l2) := by
  have hrun : (applyEvs s (deleteItemBehavior i s (.ok v)).1)._itemsStore
      = s._itemsStore.filter (fun item => HasId.id item != i) := rfl
  refine ⟨rfl, rfl, ?_, ?_⟩
  · intro h
    rw [hrun, filter_keep_all s._itemsStore i h]
  · intro l1 x l2 hL hid
    rw [hrun, hL]
    obtain ⟨h1, h2⟩ := nodup_middle_unique l1 l2 x (hL ▸ hu)
    rw [List.filter_append, List.filter_cons_of_neg (by simpa using hid)]
    rw [filter_keep_all l1 i (fun y hy => hid ▸ h1 y hy)]
    rw [filter_keep_all l2 i (fun y hy => hid ▸ h2 y hy)]

/-- Witness for C6 on the spec's own scenario: deleting id `1` from
`[{id 1}, {id 2}]` leaves `[{id 2}]`. -/
theorem deleteItemBehavior_spec_witness :
    (applyEvs { AbstractStore.init with _itemsStore := [Dream.mk 1 "", Dream.mk 2 ""] }
      (deleteItemBehavior 1
        ({ AbstractStore.init with _itemsStore := [Dream.mk 1 "", Dream.mk 2 ""] } : DreamStore)
        (.ok (none : RawDream))).1)._itemsStore = [Dream.mk 2 ""] := by
  have h := deleteItemBehavior_spec
    ({ AbstractStore.init with _itemsStore := [Dream.mk 1 "", Dream.mk 2 ""] } : DreamStore)
    1 (none : RawDream) (by decide)
  exact h.2.2.2 [] (Dream.mk 1 "") [Dream.mk 2 ""] rfl (by decide)

/-- C2: for every mutation pipeline wrapped by `preventBehaviourIfError`, an
upstream failure with error `e` before emitting produces exactly the trace
`[error-write e, write-flag-write false]` and re-raises `e`: the error
channel's value becomes `e`, the write-flag becomes `false`, the wrapped
success logic performs no item/list/response write, the error channel is
written exactly once, and the caller's stream terminates in error. -/
theorem mutation_upstream_failure {T V E : Type} [HasId T] (s : AbstractStore T V E)
    (e : E) (model : V → Except E T) (pos : Option Position) (i : Nat) :
    createItemBehavior pos model s (.error e) = ([Ev.error e, Ev.manip false], .fails e) ∧
    updateItemBehavior model s (.error e) = ([Ev.error e, Ev.manip false], .fails e) ∧
    updateMultipleItemsBehavior model s (.error e) = ([Ev.error e, Ev.manip false], .fails e) ∧
    deleteItemBehavior (V := V) i s (.error e) = ([Ev.error e, Ev.manip false], .fails e) ∧
    (applyEvs s [Ev.error e, Ev.manip false])._errorStore = some e ∧
    (applyEvs s [Ev.error e, Ev.manip false])._isFetchingAfterManipulateStore = false ∧
    (applyEvs s [Ev.error e, Ev.manip false])._itemStore = s._itemStore ∧
    (applyEvs s [Ev.error e, Ev.manip false])._itemsStore = s._itemsStore ∧
    (applyEvs s [Ev.error e, Ev.manip false])._responseStore = s._responseStore ∧
    ([Ev.error e, Ev.manip false] : List (Ev T V E)).countP isErrorWrite = 1 :=
  ⟨rfl, rfl, rfl, rfl, rfl, rfl, rfl, rfl, rfl, rfl⟩

/-- Counterexample to C1 as stated: in the create pipeline, a transform
failure (the `Dream` constructor raising on the malformed payload `none`) is
caught by the pipeline's own inner `catchError`, which returns `EMPTY`: the
error channel stays unwritten (`none`) and the caller's stream completes
empty instead of re-raising the failure. -/
theorem mutation_transform_failure_counterexample :
    (applyEvs (AbstractStore.init : DreamStore)
      (createItemBehavior none dreamModel AbstractStore.init
        (.ok (none : RawDream))).1)._errorStore = none ∧
    (createItemBehavior none dreamModel (AbstractStore.init : DreamStore)
      (.ok (none : RawDream))).2 = StreamResult.empty :=
  ⟨rfl, rfl⟩

/-- C1 amended: when the transform step fails in a mutation pipeline, the
raw payload has already been written to the response channel, the write-flag
is cleared, but the error channel is NOT written and the failure is swallowed
(the caller's stream completes empty).  Only an upstream producer failure is
recorded in the error channel and re-raised (see the upstream-failure
theorem); a transform failure leaves the error channel unwritten. -/
theorem mutation_transform_failure {T V E : Type} [HasId T] (s : AbstractStore T V E)
    (model : V → Except E T) (pos : Option Position) (v : V) (vs : List V) (err err2 : E)
    (h1 : getModel model v = .error err)
    (h2 : getModels model (some vs) = .error err2) :
    createItemBehavior pos model s (.ok v)
      = ([Ev.response (RespVal.raw v), Ev.manip false], .empty) ∧
    updateItemBehavior model s (.ok v)
      = ([Ev.response (RespVal.raw v), Ev.manip false], .empty) ∧
    updateMultipleItemsBehavior model s (.ok vs)
      = ([Ev.response (RespVal.rawList vs), Ev.manip false], .empty) ∧
    (applyEvs s [Ev.response (RespVal.raw v), Ev.manip false])._errorStore = s._errorStore ∧
    (applyEvs s [Ev.response (RespVal.raw v), Ev.manip false])._isFetchingAfterManipulateStore
      = false ∧
    ([Ev.response (RespVal.raw v), Ev.manip false] : List (Ev T V E)).countP isErrorWrite
      = 0 := by
  refine ⟨?_, ?_, ?_, rfl, rfl, rfl⟩
  · simp [createItemBehavior, preventBehaviourIfError, h1]
  · simp [updateItemBehavior, preventBehaviourIfError, h1]
  · simp [updateMultipleItemsBehavior, preventBehaviourIfError, h2]

/-- Witness for the amended C1: the update pipeline on the malformed payload
`none` writes only the response snapshot and the cleared write-flag, and the
stream completes empty. -/
theorem mutation_transform_failure_witness :
    updateItemBehavior dreamModel (AbstractStore.init : DreamStore) (.ok (none : RawDream))
      = ([Ev.response (RespVal.raw none), Ev.manip false], .empty) := by
  have h := mutation_transform_failure (AbstractStore.init : DreamStore) dreamModel none
    (none : RawDream) [none] "malformed payload" "malformed payload" rfl rfl
  exact h.2.1

/-- C4: after a successful create pipeline run, with `position = head` the
new entity is at index 0 of the list channel with the prior elements
following it; with `position = last` the prior elements keep their order and
the new entity is the final element; an unsupplied position behaves as
`last`; in both cases the item channel holds the new entity and the
write-flag is `false`. -/
theorem createItemBehavior_success {T V E : Type} (s : AbstractStore T V E)
    (model : V → Except E T) (v : V) (m : T) (h : getModel model v = .ok m) :
    (applyEvs s (createItemBehavior (some Position.head) model s (.ok v)).1)._itemsStore
      = m :: s._itemsStore ∧
    (applyEvs s (createItemBehavior (some Position.last) model s (.ok v)).1)._itemsStore
      = s._itemsStore ++ [m] ∧
    createItemBehavior none model s (.ok v)
      = createItemBehavior (some Position.last) model s (.ok v) ∧
    (applyEvs s (createItemBehavior (some Position.head) model s (.ok v)).1)._itemStore
      = some m ∧
    (applyEvs s (createItemBehavior (some Position.last) model s (.ok v)).1)._itemStore
      = some m ∧
    (applyEvs s
      (createItemBehavior (some Position.head) model s
        (.ok v)).1)._isFetchingAfterManipulateStore = false ∧
    (applyEvs s
      (createItemBehavior (some Position.last) model s
        (.ok v)).1)._isFetchingAfterManipulateStore = false := by
  refine ⟨?_, ?_, ?_, ?_, ?_, ?_, ?_⟩ <;>
    simp [createItemBehavior, preventBehaviourIfError, h, applyEvs, applyEv]

/-- Witness for C4: creating `{id 2, name b}` at the head of a store whose
list is `[{id 1, name a}]` puts it at index 0. -/
theorem createItemBehavior_success_witness :
    (applyEvs ({ AbstractStore.init with _itemsStore := [Dream.mk 1 "a"] } : DreamStore)
      (createItemBehavior (some Position.head) dreamModel
        { AbstractStore.init with _itemsStore := [Dream.mk 1 "a"] }
        (.ok (some (2, "b")))).1)._itemsStore = [Dream.mk 2 "b", Dream.mk 1 "a"] := by
  have h := createItemBehavior_success
    ({ AbstractStore.init with _itemsStore := [Dream.mk 1 "a"] } : DreamStore)
    dreamModel (some (2, "b")) (Dream.mk 2 "b") rfl
  exact h.1

/-- Outcome C7 requires of a failed read pipeline run: the stream completes
empty (no error reaches the caller), the read-flag is cleared, and the item
and list channels keep exactly their pre-call values. -/
def readFailureOutcome {T V E W : Type} (s : AbstractStore T V E)
    (run : List (Ev T V E) × StreamResult E W) : Prop :=
  run.2 = .empty ∧
  (applyEvs s run.1)._isFetchingStore = false ∧
  (applyEvs s run.1)._itemStore = s._itemStore ∧
  (applyEvs s run.1)._itemsStore = s._itemsStore

/-- C7: every failing read pipeline run — fetch-single, fetch-list and
fetch-list-keyed, failing either upstream or in the transform step — clears
the read-flag, leaves the item and list channels at their pre-call values,
and swallows the failure so the caller's stream completes empty. -/
theorem read_pipelines_failure {T V E : Type} (s : AbstractStore T V E)
    (model : V → Except E T) (e : E) (v : V) (vs : Option (List V)) (r : KeyedResp V)
    (key : Option String) (err err2 err3 : E)
    (h1 : getModel model v = .error err)
    (h2 : getModels model vs = .error err2)
    (h3 : getModels model (lookupKey r (key.getD "results")) = .error err3) :
    readFailureOutcome s (getModelAndSetValue model (.error e)) ∧
    readFailureOutcome s (getModelAndSetValue model (.ok v)) ∧
    readFailureOutcome s (getModelsAndSetValue model (.error e)) ∧
    readFailureOutcome s (getModelsAndSetValue model (.ok vs)) ∧
    readFailureOutcome s (takeItemsGetModelsAndSetValue model key (.error e)) ∧
    readFailureOutcome s (takeItemsGetModelsAndSetValue model key (.ok r)) := by
  refine ⟨?_, ?_, ?_, ?_, ?_, ?_⟩ <;>
    simp [readFailureOutcome, getModelAndSetValue, getModelsAndSetValue,
      takeItemsGetModelsAndSetValue, h1, h2, h3, applyEvs, applyEv]

/-- Witness for C7: a keyed fetch whose only payload element is malformed
leaves the item and list channels untouched, clears the read-flag and
completes empty. -/
theorem read_pipelines_failure_witness :
    readFailureOutcome (AbstractStore.init : DreamStore)
      (takeItemsGetModelsAndSetValue dreamModel none (.ok [("results", [none])])) := by
  have h := read_pipelines_failure (AbstractStore.init : DreamStore) dreamModel
    "boom" (none : RawDream) (some [none]) [("results", [none])] none
    "malformed payload" "malformed payload" "malformed payload" rfl rfl rfl
  exact h.2.2.2.2.2

/-- C8: after a successful fetch-single pipeline run on payload `p`, the item
channel holds exactly the transform of `p` and the read-flag is `false`; the
caller's stream emits the transformed entity. -/
theorem getModelAndSetValue_success {T V E : Type} (s : AbstractStore T V E)
    (model : V → Except E T) (p : V) (m : T) (h : getModel model p = .ok m) :
    (applyEvs s (getModelAndSetValue model (.ok p)).1)._itemStore = some m ∧
    (applyEvs s (getModelAndSetValue model (.ok p)).1)._isFetchingStore = false ∧
    (getModelAndSetValue model (.ok p)).2 = .emits m := by
  refine ⟨?_, ?_, ?_⟩ <;> simp [getModelAndSetValue, h, applyEvs, applyEv]

/-- Witness for C8: fetching the payload of `{id 5, name x}` stores that
entity and clears the read-flag. -/
theorem getModelAndSetValue_success_witness :
    (applyEvs (AbstractStore.init : DreamStore)
      (getModelAndSetValue dreamModel (.ok (some (5, "x")))).1)._itemStore
      = some (Dream.mk 5 "x") := by
  have h := getModelAndSetValue_success (AbstractStore.init : DreamStore) dreamModel
    (some (5, "x")) (Dream.mk 5 "x") rfl
  exact h.1

/-- C9: a successful fetch-list-keyed pipeline run on keyed response `r`
first writes `r` unchanged to the response-snapshot channel, then extracts
`r[key]` — with `key` defaulting to `"results"` when not supplied — then
transforms each extracted element, writes the resulting list to the list
channel and clears the read-flag (the exact trace shows the order). -/
theorem takeItemsGetModelsAndSetValue_success {T V E : Type} (s : AbstractStore T V E)
    (model : V → Except E T) (r : KeyedResp V) (ms : List T)
    (h : getModels model (lookupKey r "results") = .ok ms) :
    (takeItemsGetModelsAndSetValue model none (.ok r)).1
      = [Ev.response (RespVal.keyed r), Ev.items ms, Ev.fetching false, Ev.fetching false] ∧
    (takeItemsGetModelsAndSetValue model none (.ok r)).2 = .emits ms ∧
    (applyEvs s (takeItemsGetModelsAndSetValue model none (.ok r)).1)._responseStore
      = some (RespVal.keyed r) ∧
    (applyEvs s (takeItemsGetModelsAndSetValue model none (.ok r)).1)._itemsStore = ms ∧
    (applyEvs s (takeItemsGetModelsAndSetValue model none (.ok r)).1)._isFetchingStore
      = false ∧
    (∀ input : Except E (KeyedResp V),
      takeItemsGetModelsAndSetValue model none input
        = takeItemsGetModelsAndSetValue model (some "results") input) := by
  refine ⟨?_, ?_, ?_, ?_, ?_, fun input => rfl⟩ <;>
    simp [takeItemsGetModelsAndSetValue, getModelsAndSetValue, h, applyEvs, applyEv]

/-- Witness for C9: a response carrying one well-formed payload under
`"results"` is snapshotted, extracted, transformed and stored in order. -/
theorem takeItemsGetModelsAndSetValue_success_witness :
    (takeItemsGetModelsAndSetValue dreamModel none
      (.ok [("results", [some (1, "a")])] : Except String (KeyedResp RawDream))).1
      = [Ev.response (RespVal.keyed [("results", [some (1, "a")])]),
         Ev.items [Dream.mk 1 "a"], Ev.fetching false, Ev.fetching false] := by
  have h := takeItemsGetModelsAndSetValue_success (AbstractStore.init : DreamStore)
    dreamModel [("results", [some (1, "a")])] [Dream.mk 1 "a"] rfl
  exact h.1

/-- Counterexample to C10 as stated: `setIsDreamCompleted` is a
mutation-triggering store method (it pipes the update-single pipeline), yet
it performs no synchronous channel write at call time — after the call the
write-flag still reads `false`, not `true`. -/
theorem setIsDreamCompleted_no_flag_write :
    (DreamStoreService.setIsDreamCompleted 1).1 = [] ∧
    (applyEvs (AbstractStore.init : DreamStore)
      (DreamStoreService.setIsDreamCompleted 1).1)._isFetchingAfterManipulateStore = false :=
  ⟨rfl, rfl⟩

/-- C10 amended: every store method wrapped in `startFetchingWrapper` /
`startFetchingAfterManipulateWrapper` writes `true` to its flag channel
synchronously at call time and performs no other synchronous channel write
(so if the returned cold producer is never subscribed, the flag stays `true`
and every other channel keeps its value); however `setIsDreamCompleted` and
`setIsWithDelivery` pipe the update pipeline without the wrapper and perform
no synchronous channel write at all. -/
theorem store_methods_flag_write (id : Nat) (b : Bool) (s : DreamStore) :
    DreamStoreService.getProfileDreams.1 = [Ev.fetching true] ∧
    DreamStoreService.getDreamsAsAdmin.1 = [Ev.fetching true] ∧
    DreamStoreService.getPlatformDreamsAsAdmin.1 = [Ev.fetching true] ∧
    (DreamStoreService.getDreamById id).1 = [Ev.fetching true] ∧
    (DreamStoreService.getDreamByIdAsAdmin id).1 = [Ev.fetching true] ∧
    DreamStoreService.createDream.1 = [Ev.manip true] ∧
    (DreamStoreService.updateDreamAsAdmin id).1 = [Ev.manip true] ∧
    DreamStoreService.updateMultipleDreams.1 = [Ev.manip true] ∧
    DreamStoreService.updateMultiplePlatformDreams.1 = [Ev.manip true] ∧
    (DreamStoreService.setIsDreamCompleted id).1 = [] ∧
    (DreamStoreService.setIsWithDelivery id b).1 = [] ∧
    (applyEvs s [Ev.fetching true])._isFetchingStore = true ∧
    (applyEvs s [Ev.fetching true])._itemStore = s._itemStore ∧
    (applyEvs s [Ev.fetching true])._itemsStore = s._itemsStore ∧
    (applyEvs s [Ev.fetching true])._responseStore = s._responseStore ∧
    (applyEvs s [Ev.fetching true])._errorStore = s._errorStore ∧
    (applyEvs s [Ev.manip true])._isFetchingAfterManipulateStore = true ∧
    (applyEvs s [Ev.manip true])._itemStore = s._itemStore ∧
    (applyEvs s [Ev.manip true])._itemsStore = s._itemsStore ∧
    (applyEvs s [Ev.manip true])._responseStore = s._responseStore ∧
    (applyEvs s [Ev.manip true])._errorStore = s._errorStore :=
  ⟨rfl, rfl, rfl, rfl, rfl, rfl, rfl, rfl, rfl, rfl, rfl,
   rfl, rfl, rfl, rfl, rfl, rfl, rfl, rfl, rfl, rfl⟩

